import Mathlib

/-!
Verification of the `Group` typeclass layer of Boost.Hana
(src/include/boost/hana/group/group.hpp), a compile-time type-class
dispatch and default-method-derivation engine.

Value level: a resolved `Group::instance<G, G>` for a datatype whose
values live in a Lean type `G` is a record of the operation bodies the
engine ends up with: the parent `Monoid`'s `zero` and `plus` together
with the `Group` methods `minus_impl` and `negate_impl`.

Resolution level: the instance registry and predicate-gated resolution
of `boost/hana/core/typeclass.hpp` is not part of the sources at hand
(only the `BOOST_HANA_BINARY_TYPECLASS(Group)` declaration and the
`when<...>` guards that use it are); it is modelled from the spec as an
explicit list of predicate-gated candidates with single-match lookup.
-/

namespace Hana

/-- The operations of a resolved `Group::instance<G, G>` over value
type `G`: the parent `Monoid` operations `zero` and `plus`
(boost/hana/monoid/monoid.hpp, an upstream collaborator of the group
header), plus the `Group` method bodies `minus_impl` and `negate_impl`. -/
structure GroupInst (G : Type) where
  zero : G
  plus : G → G → G
  minus_impl : G → G → G
  negate_impl : G → G

/-- group.hpp lines 56-60: `minus(x, y)` dispatches to
`Group::instance<datatype(x), datatype(y)>::minus_impl(x, y)`.  The
resolved instance is the explicit argument `i`. -/
def minus {G : Type} (i : GroupInst G) (x y : G) : G :=
  i.minus_impl x y

/-- group.hpp lines 71-75: `negate(x)` dispatches to
`Group::instance<G, G>::negate_impl(x)` where `G = datatype(x)`. -/
def negate {G : Type} (i : GroupInst G) (x : G) : G :=
  i.negate_impl x

/-- group.hpp lines 77-84, `Group::minus_mcd<G1, G2>`: the author
supplies `minus_impl`; the synthesizer derives
`negate_impl(x) = minus(zero<G1>, x)`.  For a homogeneous instance the
dispatched `minus(zero<G1>, x)` resolves back to this same instance's
`minus_impl`, so the derived body is `m zero x`. -/
def Group.minus_mcd {G : Type} (zero : G) (plus : G → G → G)
    (m : G → G → G) : GroupInst G :=
  { zero := zero
    plus := plus
    minus_impl := m
    negate_impl := fun x => m zero x }

/-- Modelled from the spec: `Group::negate_mcd` is only forward-declared
in group.hpp (lines 37-38) and its definition is not among the sources.
Spec 4.3, MCD "invert": the author supplies `invert(x)` (`negate_impl`);
derived: `subtract(x, y) = combine(x, invert(y))`. -/
def Group.negate_mcd {G : Type} (zero : G) (plus : G → G → G)
    (n : G → G) : GroupInst G :=
  { zero := zero
    plus := plus
    minus_impl := fun x y => plus x (n y)
    negate_impl := n }

/-- group.hpp lines 115-129: the built-in `Group` instance for numeric
data types derives from `Group::minus_mcd<X, Y>` and supplies
`minus_impl(x, y) = x - y`, the operand types' own built-in subtraction.
Instantiated at the integers; the parent `Monoid` instance for numerics
(zero = 0, plus = built-in +) is from boost/hana/monoid/monoid.hpp,
taken here as the spec describes it (`identity == 0`). -/
def Group.instance_numeric : GroupInst Int :=
  Group.minus_mcd 0 (fun x y => x + y) (fun x y => x - y)

namespace operators

/-- group.hpp lines 89-91: binary `operator-(c1, c2)` returns
`minus(c1, c2)`. -/
def minusOp {G : Type} (i : GroupInst G) (c1 c2 : G) : G :=
  minus i c1 c2

/-- group.hpp lines 95-97: unary `operator-(c1)` returns `negate(c1)`. -/
def negateOp {G : Type} (i : GroupInst G) (c1 : G) : G :=
  negate i c1

end operators

end Hana

namespace Hana

/-- C2: the built-in numeric `Group` instance implements `subtract` as
the built-in subtraction: at the integers 5 and 3, `minus(5, 3) == 2`,
`negate(5) == -5` (derived by `minus_mcd` as `minus(zero, 5)` with
`zero == 0`), and `plus(5, negate(5)) == 0`. -/
theorem numeric_concrete_scenario :
    minus Group.instance_numeric 5 3 = 2
    ∧ negate Group.instance_numeric 5 = -5
    ∧ negate Group.instance_numeric 5
        = minus Group.instance_numeric Group.instance_numeric.zero 5
    ∧ Group.instance_numeric.zero = 0
    ∧ Group.instance_numeric.plus 5 (negate Group.instance_numeric 5) = 0 := by
  refine ⟨by decide, by decide, rfl, rfl, by decide⟩

/-- C3: for an instance built with the "subtract" MCD
(`Group::minus_mcd`), the derived inverse satisfies
`negate(x) = minus(identity, x)` for all `x`, where `identity` is the
parent `Monoid`'s identity element of the instance. -/
theorem minus_mcd_negate_eq (G : Type) (z : G) (p : G → G → G)
    (m : G → G → G) (x : G) :
    negate (Group.minus_mcd z p m) x
      = minus (Group.minus_mcd z p m) (Group.minus_mcd z p m).zero x :=
  rfl

/-- C9: for an instance built with the "invert" MCD
(`Group::negate_mcd`, modelled from the spec), the derived subtraction
satisfies `minus(x, y) = plus(x, negate(y))` for all `x`, `y`. -/
theorem negate_mcd_minus_eq (G : Type) (z : G) (p : G → G → G)
    (n : G → G) (x y : G) :
    minus (Group.negate_mcd z p n) x y
      = (Group.negate_mcd z p n).plus x (negate (Group.negate_mcd z p n) y) :=
  rfl

/-- C1: `subtract(x, y)` is behaviorally equivalent to
`combine(x, invert(y))` whether subtraction is supplied natively or
derived: for every instance built with the "invert" MCD the equation is
the derived definition itself, and for the built-in numeric instance
(which supplies `minus_impl` natively via the "subtract" MCD) the
equation holds for all integers `x`, `y`. -/
theorem subtract_eq_combine_invert :
    (∀ (G : Type) (z : G) (p : G → G → G) (n : G → G) (x y : G),
      minus (Group.negate_mcd z p n) x y
        = (Group.negate_mcd z p n).plus x (negate (Group.negate_mcd z p n) y))
    ∧ (∀ x y : Int,
      minus Group.instance_numeric x y
        = Group.instance_numeric.plus x (negate Group.instance_numeric y)) := by
  constructor
  · intro G z p n x y
    rfl
  · intro x y
    show x - y = x + (0 - y)
    omega

/-- C8: the group laws hold at the built-in numeric instance over the
integers: `plus(x, negate(x)) == zero` (right inverse) and
`plus(negate(x), x) == zero` (left inverse) for all `x`. -/
theorem numeric_group_laws (x : Int) :
    Group.instance_numeric.plus x (negate Group.instance_numeric x)
        = Group.instance_numeric.zero
    ∧ Group.instance_numeric.plus (negate Group.instance_numeric x) x
        = Group.instance_numeric.zero := by
  constructor
  · show x + (0 - x) = 0
    omega
  · show (0 - x) + x = 0
    omega

/-- Modelled from the spec: the instance registry of
`BOOST_HANA_BINARY_TYPECLASS(Group)` (boost/hana/core/typeclass.hpp is
not among the sources) holds, per spec 4.2, statically enumerated
candidate instances, each gated by a compile-time predicate over the
two operand types. -/
structure Candidate (τ : Type) (ι : Type) where
  pred : τ → τ → Bool
  inst : ι

/-- Modelled from the spec: resolution failures, per spec 4.2 and 7:
"no instance" when zero candidates match, "ambiguous instance" when
more than one matches. -/
inductive ResolveError where
  | noInstance
  | ambiguous
deriving DecidableEq, Repr

/-- Modelled from the spec, 4.2: `resolve(structure, T1, T2)` filters
the declared candidates to those whose predicate holds at `(t1, t2)`;
exactly one remaining is returned, zero fail with "no instance", two or
more fail with "ambiguous instance". -/
def resolve {τ ι : Type} (reg : List (Candidate τ ι)) (t1 t2 : τ) :
    Except ResolveError ι :=
  match reg.filter (fun c => c.pred t1 t2) with
  | [] => .error .noInstance
  | [c] => .ok c.inst
  | _ :: _ :: _ => .error .ambiguous

/-- group.hpp lines 56-60: `minus(x, y)` resolves the instance at the
operand pair `(datatype(x), datatype(y))`. -/
def Group.resolveForMinus {τ ι : Type} (reg : List (Candidate τ ι))
    (t1 t2 : τ) : Except ResolveError ι :=
  resolve reg t1 t2

/-- group.hpp lines 71-75: `negate(x)` resolves the instance at the
homogeneous pair `(G, G)` where `G = datatype(x)`. -/
def Group.resolveForNegate {τ ι : Type} (reg : List (Candidate τ ι))
    (t : τ) : Except ResolveError ι :=
  resolve reg t t

/-- A resolution outcome is an available instance (not a failure). -/
def resolves {ι : Type} (e : Except ResolveError ι) : Bool :=
  match e with
  | .ok _ => true
  | .error _ => false

/-- Modelled from the spec: the compile-time information about a pair
of operand types that the numeric instance's predicate
(group.hpp lines 116-123) consumes: whether `are<Monoid, X, Y>()`
holds, and the outcome of the structural subtraction probe
`decltype((void)(*(X*)0 - *(Y*)0), 1){}, true` — `none` when the
subtraction expression is ill-formed for the pair (the probe does not
apply), `some b` when it is well-formed and yields `b` (always `true`
in the source's probe). -/
structure TypePairInfo where
  bothMonoid : Bool
  subProbe : Option Bool

/-- group.hpp lines 116-123 with the `when<...>` semantics modelled
from the spec (4.1): the numeric instance's predicate is the
conjunction of `are<Monoid, X, Y>()` and the subtraction probe, and an
ill-formed probe counts as `false` rather than an error. -/
def numericPred (info : TypePairInfo) : Bool :=
  info.bothMonoid
    && (match info.subProbe with
        | none => false
        | some b => b)

/-- Helper: a filtered registry with at least two survivors resolves
ambiguous. -/
theorem resolve_of_two_le {τ ι : Type} (reg : List (Candidate τ ι))
    (t1 t2 : τ) (h : 2 ≤ (reg.filter (fun c => c.pred t1 t2)).length) :
    resolve reg t1 t2 = .error .ambiguous := by
  unfold resolve
  match hm : reg.filter (fun c => c.pred t1 t2) with
  | [] => rw [hm] at h; simp at h
  | [c] => rw [hm] at h; simp at h
  | a :: b :: rest => rw [hm]

/-- A small concrete universe of datatypes for evaluating the
resolution model: `intT` is a numeric datatype (satisfies `Monoid`,
subtraction well-formed); `strT` is a datatype that does not satisfy
`Monoid` and has no subtraction expression. -/
inductive DT where
  | intT
  | strT
deriving DecidableEq, Repr

/-- Modelled from the spec: the compile-time type information of each
operand pair over the universe `DT`: only `(intT, intT)` satisfies
`are<Monoid, X, Y>()`, and only there is the subtraction probe
well-formed (yielding `true`, as the source's probe always does when it
is well-formed). -/
def typeInfo : DT → DT → TypePairInfo
  | .intT, .intT => ⟨true, some true⟩
  | _, _ => ⟨false, none⟩

/-- The declared `Group` candidates over `DT`: the single built-in
numeric instance of group.hpp lines 115-129, gated by `numericPred`. -/
def groupRegistry : List (Candidate DT Unit) :=
  [⟨fun a b => numericPred (typeInfo a b), ()⟩]

/-- C7: the symbolic binary form `a - b` returns exactly `minus(a, b)`
and the unary symbolic form `-a` returns exactly `negate(a)`, for every
resolved instance and all operands: the operators forward without adding
behavior. -/
theorem operator_function_equivalence (G : Type) (i : GroupInst G)
    (a b : G) :
    operators.minusOp i a b = minus i a b
    ∧ operators.negateOp i a = negate i a :=
  ⟨rfl, rfl⟩

/-- C4: if the predicates of two declared candidates are simultaneously
true at the same operand pair, resolution fails as ambiguous and never
silently picks one of them. -/
theorem ambiguous_resolution {τ ι : Type} (l1 l2 l3 : List (Candidate τ ι))
    (c1 c2 : Candidate τ ι) (t1 t2 : τ)
    (h1 : c1.pred t1 t2 = true) (h2 : c2.pred t1 t2 = true) :
    resolve (l1 ++ c1 :: l2 ++ c2 :: l3) t1 t2 = .error .ambiguous := by
  apply resolve_of_two_le
  simp [List.filter_append, List.filter_cons, h1, h2]
  omega

/-- Witness for C4: two always-applicable candidates at `(intT, intT)`
resolve ambiguous. -/
theorem ambiguous_resolution_witness :
    (Candidate.pred (⟨fun _ _ => true, ()⟩ : Candidate DT Unit)
        DT.intT DT.intT = true)
    ∧ resolve
        (([] : List (Candidate DT Unit))
          ++ ⟨fun _ _ => true, ()⟩ :: [] ++ ⟨fun _ _ => true, ()⟩ :: [])
        DT.intT DT.intT = .error .ambiguous :=
  ⟨rfl,
    ambiguous_resolution [] [] [] ⟨fun _ _ => true, ()⟩ ⟨fun _ _ => true, ()⟩
      DT.intT DT.intT rfl rfl⟩

/-- C5: when the structural subtraction probe is itself ill-formed for
the operand pair (the capability probe does not apply), the numeric
instance's predicate evaluates to false — the instance is simply not
applicable — rather than propagating an error. -/
theorem illformed_probe_pred_false (info : TypePairInfo)
    (h : info.subProbe = none) : numericPred info = false := by
  simp [numericPred, h]

/-- Witness for C5: at the pair `(strT, strT)` the probe is ill-formed
and the predicate is false. -/
theorem illformed_probe_pred_false_witness :
    (typeInfo DT.strT DT.strT).subProbe = none
    ∧ numericPred (typeInfo DT.strT DT.strT) = false :=
  ⟨rfl, illformed_probe_pred_false (typeInfo DT.strT DT.strT) rfl⟩

/-- C6: resolving a `Group` operation at an operand pair where zero
candidates' predicates are true fails with "no instance" and never
falls back to a default. -/
theorem no_instance_resolution {τ ι : Type} (reg : List (Candidate τ ι))
    (t1 t2 : τ) (h : ∀ c ∈ reg, c.pred t1 t2 = false) :
    resolve reg t1 t2 = .error .noInstance := by
  have hf : reg.filter (fun c => c.pred t1 t2) = [] := by
    rw [List.filter_eq_nil_iff]
    intro c hc
    simp [h c hc]
  unfold resolve
  rw [hf]

/-- Witness for C6: over the registry holding the built-in numeric
candidate, the pair `(strT, strT)` (two types that do not both satisfy
`Monoid`) matches zero candidates and resolution fails with
"no instance". -/
theorem no_instance_resolution_witness :
    (∀ c ∈ groupRegistry, c.pred DT.strT DT.strT = false)
    ∧ resolve groupRegistry DT.strT DT.strT = .error .noInstance :=
  ⟨by decide,
    no_instance_resolution groupRegistry DT.strT DT.strT (by decide)⟩

/-- C10: `negate` resolves the instance at the homogeneous pair
`(G, G)` — exactly the instance `minus` resolves for two values of
datatype `G` — so unary inversion is available exactly when the
homogeneous binary instance resolves. -/
theorem negate_dispatch_pair {τ ι : Type} (reg : List (Candidate τ ι))
    (t : τ) :
    Group.resolveForNegate reg t = Group.resolveForMinus reg t t
    ∧ resolves (Group.resolveForNegate reg t)
        = resolves (Group.resolveForMinus reg t t) :=
  ⟨rfl, rfl⟩

end Hana
